import Mathlib

/-!
Shallow embedding of the NgRx-style store of the angular-showcase
repository: the counter, todo and actions-log feature slices, their
reducers (`counterReducer`, `todoReducer`, `actionsLogReducer`), the
root reducer map (`appReducers`) and the todo selectors
(`selectFilteredTodos` and its inputs).

JavaScript numbers carrying counter values are embedded as `Int`
(the counter may go negative); todo ids and `Date.now()` readings as
`Nat`.  The template-string formatting of the actions-log reducer is
embedded as string concatenation.  `Date.now()` inside the `addTodo`
handler of `todoReducer` is an external input, so the embedding takes
the clock reading as an explicit `now` argument.
-/

namespace Showcase

/-- The filter union type of `todo.state.ts`: `'all' | 'active' | 'completed'`. -/
inductive Filter where
  | all
  | active
  | completed
deriving DecidableEq, Repr

/-- String form of a `Filter` value, as produced by a template string
interpolating the TypeScript union value. -/
def Filter.toStr : Filter → String
  | .all => "all"
  | .active => "active"
  | .completed => "completed"

/-- The `Todo` entity of `todo.state.ts`. -/
structure Todo where
  id : Nat
  text : String
  completed : Bool
deriving DecidableEq, Repr

/-- The `TodoState` shape of `todo.state.ts`. -/
structure TodoState where
  todos : List Todo
  filter : Filter
deriving DecidableEq, Repr

/-- `initialTodoState` of `todo.state.ts`. -/
def initialTodoState : TodoState :=
  { todos :=
      [ { id := 1, text := "Learn NgRx", completed := false }
      , { id := 2, text := "Create a store", completed := true }
      , { id := 3, text := "Implement actions", completed := false } ]
  , filter := Filter.all }

/-- The `CounterState` shape of `counter.state.ts`. -/
structure CounterState where
  count : Int
  history : List Int
deriving DecidableEq, Repr

/-- `initialCounterState` of `counter.state.ts`. -/
def initialCounterState : CounterState :=
  { count := 0, history := [0] }

/-- The `ActionsLogState` shape of `actions-log.state.ts`. -/
structure ActionsLogState where
  logs : List String
deriving DecidableEq, Repr

/-- `initialActionsLogState` of `actions-log.state.ts`. -/
def initialActionsLogState : ActionsLogState :=
  { logs := [] }

/-- The union of every action defined in the store:
`counter.actions.ts` (increment, decrement, reset),
`todo.actions.ts` (addTodo, toggleTodo, deleteTodo, setFilter,
clearCompleted) and `actions-log.actions.ts` (clearLogs). -/
inductive Action where
  | increment
  | decrement
  | reset
  | addTodo (text : String)
  | toggleTodo (id : Nat)
  | deleteTodo (id : Nat)
  | setFilter (filter : Filter)
  | clearCompleted
  | clearLogs
deriving DecidableEq, Repr

/-- `counterReducer` of `counter.reducer.ts`: `createReducer` handles
increment, decrement and reset; every other action returns the input
state unchanged (NgRx `createReducer` semantics). -/
def counterReducer (state : CounterState) (a : Action) : CounterState :=
  match a with
  | .increment =>
      { state with
        count := state.count + 1
        history := state.history ++ [state.count + 1] }
  | .decrement =>
      { state with
        count := state.count - 1
        history := state.history ++ [state.count - 1] }
  | .reset => initialCounterState
  | _ => state

/-- `todoReducer` of `todo.reducer.ts`.  The `addTodo` handler calls
`Date.now()` for the new todo's id; the clock reading at evaluation
time is the explicit argument `now`.  Every action not handled by an
`on(...)` clause returns the input state unchanged. -/
def todoReducer (now : Nat) (state : TodoState) (a : Action) : TodoState :=
  match a with
  | .addTodo text =>
      { state with
        todos := state.todos ++ [{ id := now, text := text, completed := false }] }
  | .toggleTodo id =>
      { state with
        todos := state.todos.map fun todo =>
          if todo.id == id then { todo with completed := !todo.completed } else todo }
  | .deleteTodo id =>
      { state with todos := state.todos.filter fun todo => !(todo.id == id) }
  | .setFilter f => { state with filter := f }
  | .clearCompleted =>
      { state with todos := state.todos.filter fun todo => !todo.completed }
  | _ => state

/-- `actionsLogReducer` of `actions-log.reducer.ts`: it listens to all
counter and todo actions, prepending a formatted string and truncating
with `.slice(0, 10)` (embedded as `List.take 10`), and resets to the
initial state on `clearLogs`.  It has a handler for every action of
the store. -/
def actionsLogReducer (state : ActionsLogState) (a : Action) : ActionsLogState :=
  match a with
  | .increment => { logs := ("INCREMENT" :: state.logs).take 10 }
  | .decrement => { logs := ("DECREMENT" :: state.logs).take 10 }
  | .reset => { logs := ("RESET" :: state.logs).take 10 }
  | .addTodo text =>
      { logs := (("ADD_TODO (" ++ text ++ ")") :: state.logs).take 10 }
  | .toggleTodo id =>
      { logs := (("TOGGLE_TODO (" ++ toString id ++ ")") :: state.logs).take 10 }
  | .deleteTodo id =>
      { logs := (("DELETE_TODO (" ++ toString id ++ ")") :: state.logs).take 10 }
  | .setFilter f =>
      { logs := (("SET_FILTER (" ++ f.toStr ++ ")") :: state.logs).take 10 }
  | .clearCompleted => { logs := ("CLEAR_COMPLETED" :: state.logs).take 10 }
  | .clearLogs => initialActionsLogState

/-- The `AppState` shape of `app.state.ts`: one slice per feature. -/
structure AppState where
  counter : CounterState
  todo : TodoState
  actionsLog : ActionsLogState
deriving DecidableEq, Repr

/-- `appReducers` of `app.reducers.ts`: the root reducer map applies
each feature reducer to its own slice for every dispatched action.
The clock reading `now` is threaded to `todoReducer`. -/
def appReducers (now : Nat) (s : AppState) (a : Action) : AppState :=
  { counter := counterReducer s.counter a
  , todo := todoReducer now s.todo a
  , actionsLog := actionsLogReducer s.actionsLog a }

/-- `selectAllTodos` of `todo.selectors.ts`, applied to the todo slice. -/
def selectAllTodos (s : TodoState) : List Todo :=
  s.todos

/-- `selectFilter` of `todo.selectors.ts`, applied to the todo slice. -/
def selectFilter (s : TodoState) : Filter :=
  s.filter

/-- `selectFilteredTodos` of `todo.selectors.ts`: the projector
switches on the filter; the `default` branch of the `switch` (reached
exactly for `'all'`) returns the todos unchanged. -/
def selectFilteredTodos (s : TodoState) : List Todo :=
  match selectFilter s with
  | .active => (selectAllTodos s).filter fun t => !t.completed
  | .completed => (selectAllTodos s).filter fun t => t.completed
  | .all => selectAllTodos s

/-- The actions-log state reached from `initialActionsLogState` by a
sequence of dispatched actions. -/
def actionsLogRun (acts : List Action) : ActionsLogState :=
  acts.foldl actionsLogReducer initialActionsLogState

/-- The counter state reached from `initialCounterState` by a sequence
of dispatched actions. -/
def counterRun (acts : List Action) : CounterState :=
  acts.foldl counterReducer initialCounterState

/-! ### Helper lemmas -/

/-- One step of `actionsLogReducer` never produces more than 10 log
entries, whatever the action. -/
theorem actionsLogReducer_length_le (s : ActionsLogState) (a : Action) :
    (actionsLogReducer s a).logs.length ≤ 10 := by
  cases a <;> simp [actionsLogReducer, initialActionsLogState]

/-! ### Claims -/

/-- Claim C1: for every sequence of dispatched actions applied by
`actionsLogReducer` starting from `initialActionsLogState`, the
resulting actions-log state has at most 10 entries in `logs`. -/
theorem claim_C1_log_bounded (acts : List Action) :
    (actionsLogRun acts).logs.length ≤ 10 := by
  unfold actionsLogRun
  rcases List.eq_nil_or_concat acts with h | ⟨pre, a, h⟩
  · simp [h, initialActionsLogState]
  · rw [h, List.concat_eq_append, List.foldl_append]
    exact actionsLogReducer_length_le _ _

/-- Claim C3: dispatching `clearLogs` resets the actions-log state to
`initialActionsLogState` (empty `logs`), whatever the previous state. -/
theorem claim_C3_clearLogs (s : ActionsLogState) :
    actionsLogReducer s Action.clearLogs = initialActionsLogState := rfl

/-- Claim C2: for every actions-log state and every tracked action, the
new `logs` is the first 10 elements of the formatted string for the
action prepended to the old `logs` (action name, payload in
parentheses for payload-carrying actions), so the newest entry sits at
position 0. -/
theorem claim_C2_log_step (s : ActionsLogState) (text : String) (id : Nat) (f : Filter) :
    (actionsLogReducer s Action.increment).logs = ("INCREMENT" :: s.logs).take 10 ∧
    (actionsLogReducer s Action.decrement).logs = ("DECREMENT" :: s.logs).take 10 ∧
    (actionsLogReducer s Action.reset).logs = ("RESET" :: s.logs).take 10 ∧
    (actionsLogReducer s (Action.addTodo text)).logs
      = (("ADD_TODO (" ++ text ++ ")") :: s.logs).take 10 ∧
    (actionsLogReducer s (Action.toggleTodo id)).logs
      = (("TOGGLE_TODO (" ++ toString id ++ ")") :: s.logs).take 10 ∧
    (actionsLogReducer s (Action.deleteTodo id)).logs
      = (("DELETE_TODO (" ++ toString id ++ ")") :: s.logs).take 10 ∧
    (actionsLogReducer s (Action.setFilter f)).logs
      = (("SET_FILTER (" ++ f.toStr ++ ")") :: s.logs).take 10 ∧
    (actionsLogReducer s Action.clearCompleted).logs
      = ("CLEAR_COMPLETED" :: s.logs).take 10 :=
  ⟨rfl, rfl, rfl, rfl, rfl, rfl, rfl, rfl⟩

/-- Claim C5: each feature reducer returns its input state unchanged on
every action outside its handled set: `counterReducer` on the five todo
actions and on `clearLogs`, `todoReducer` on the three counter actions
and on `clearLogs`.  (`actionsLogReducer` handles every action of the
store, so its unhandled set is empty.) -/
theorem claim_C5_unhandled_identity (s : CounterState) (t : TodoState) (now : Nat)
    (text : String) (id : Nat) (f : Filter) :
    counterReducer s (Action.addTodo text) = s ∧
    counterReducer s (Action.toggleTodo id) = s ∧
    counterReducer s (Action.deleteTodo id) = s ∧
    counterReducer s (Action.setFilter f) = s ∧
    counterReducer s Action.clearCompleted = s ∧
    counterReducer s Action.clearLogs = s ∧
    todoReducer now t Action.increment = t ∧
    todoReducer now t Action.decrement = t ∧
    todoReducer now t Action.reset = t ∧
    todoReducer now t Action.clearLogs = t :=
  ⟨rfl, rfl, rfl, rfl, rfl, rfl, rfl, rfl, rfl, rfl⟩

/-- Claim C6: `selectFilteredTodos` returns an in-order sublist of the
state's todos; with filter `active` it returns exactly the todos with
`completed = false`, with `completed` exactly those with
`completed = true`, and with `all` the full list unchanged. -/
theorem claim_C6_selectFilteredTodos (s : TodoState) :
    List.Sublist (selectFilteredTodos s) s.todos ∧
    (s.filter = Filter.active →
      selectFilteredTodos s = s.todos.filter (fun t => !t.completed) ∧
      ∀ t : Todo, t ∈ selectFilteredTodos s ↔ t ∈ s.todos ∧ t.completed = false) ∧
    (s.filter = Filter.completed →
      selectFilteredTodos s = s.todos.filter (fun t => t.completed) ∧
      ∀ t : Todo, t ∈ selectFilteredTodos s ↔ t ∈ s.todos ∧ t.completed = true) ∧
    (s.filter = Filter.all → selectFilteredTodos s = s.todos) := by
  obtain ⟨todos, f⟩ := s
  cases f <;>
    simp [selectFilteredTodos, selectAllTodos, selectFilter, List.mem_filter,
      List.filter_sublist, Bool.not_eq_true]

/-- Witness for claim C6 at a concrete state: the initial todos with
the `active` filter select exactly the uncompleted todos. -/
theorem claim_C6_witness :
    selectFilteredTodos { todos := initialTodoState.todos, filter := Filter.active }
      = List.filter (fun t => !t.completed) initialTodoState.todos :=
  ((claim_C6_selectFilteredTodos
      { todos := initialTodoState.todos, filter := Filter.active }).2.1 rfl).1

/-- One step of `counterReducer` preserves the invariant that the last
history entry is the current count. -/
theorem counterReducer_inv (s : CounterState) (a : Action)
    (h : s.history.getLast? = some s.count) :
    (counterReducer s a).history.getLast? = some (counterReducer s a).count := by
  cases a <;>
    simp only [counterReducer, List.getLast?_concat, initialCounterState] <;>
    first
      | exact h
      | rfl

/-- Folding `counterReducer` over any action list preserves the
last-history-entry invariant. -/
theorem counterReducer_foldl_inv (acts : List Action) :
    ∀ s : CounterState, s.history.getLast? = some s.count →
      (acts.foldl counterReducer s).history.getLast?
        = some (acts.foldl counterReducer s).count := by
  induction acts with
  | nil => exact fun s h => h
  | cons a rest ih => exact fun s h => ih (counterReducer s a) (counterReducer_inv s a h)

/-- Claim C7: every counter state reachable from `initialCounterState`
by counter actions (indeed by any sequence of dispatched actions) has a
non-empty history whose last element equals the current count. -/
theorem claim_C7_history_last (acts : List Action) :
    (counterRun acts).history ≠ [] ∧
    (counterRun acts).history.getLast? = some (counterRun acts).count := by
  have h : (counterRun acts).history.getLast? = some (counterRun acts).count :=
    counterReducer_foldl_inv acts initialCounterState rfl
  refine ⟨fun hnil => ?_, h⟩
  rw [hnil] at h
  exact Option.noConfusion h

/-- Applying the `toggleTodo` mapping of `todo.reducer.ts` twice over a
todo list is the identity. -/
theorem toggle_map_involutive (id : Nat) (l : List Todo) :
    ((l.map fun todo =>
        if todo.id == id then { todo with completed := !todo.completed } else todo).map
      fun todo =>
        if todo.id == id then { todo with completed := !todo.completed } else todo) = l := by
  induction l with
  | nil => rfl
  | cons t rest ih =>
    simp only [List.map_cons, ih]
    obtain ⟨tid, ttext, tc⟩ := t
    by_cases h : tid = id <;> simp [h]

/-- Claim C8: toggling the same id twice with `todoReducer` restores
the original todo state (same todos element-wise, same filter),
whatever clock readings the two evaluations see. -/
theorem claim_C8_toggle_involution (now now' : Nat) (s : TodoState) (id : Nat) :
    todoReducer now' (todoReducer now s (Action.toggleTodo id)) (Action.toggleTodo id) = s := by
  obtain ⟨todos, f⟩ := s
  simp only [todoReducer]
  rw [toggle_map_involutive]

/-- Claim C9: each todo action touches only its own field: `setFilter`
replaces the filter and leaves the todos unchanged, while `addTodo`,
`toggleTodo`, `deleteTodo` and `clearCompleted` leave the filter
unchanged; `addTodo` appends the new todo, keeping all existing todos
as a prefix of the new list. -/
theorem claim_C9_frame (now : Nat) (s : TodoState) (text : String) (id : Nat) (f : Filter) :
    (todoReducer now s (Action.setFilter f)).todos = s.todos ∧
    (todoReducer now s (Action.setFilter f)).filter = f ∧
    (todoReducer now s (Action.addTodo text)).filter = s.filter ∧
    (todoReducer now s (Action.addTodo text)).todos
      = s.todos ++ [{ id := now, text := text, completed := false }] ∧
    (todoReducer now s (Action.toggleTodo id)).filter = s.filter ∧
    (todoReducer now s (Action.deleteTodo id)).filter = s.filter ∧
    (todoReducer now s Action.clearCompleted).filter = s.filter :=
  ⟨rfl, rfl, rfl, rfl, rfl, rfl, rfl⟩

/-- Counterexample to claim C4 as stated: `todoReducer` is not a pure
function of (state, action) alone, because the `addTodo` handler reads
`Date.now()` for the new todo's id.  Two evaluations on the same state
and action, seeing clock readings 1 and 2, return different states. -/
theorem claim_C4_counterexample :
    todoReducer 1 initialTodoState (Action.addTodo "x")
      ≠ todoReducer 2 initialTodoState (Action.addTodo "x") := by
  decide

/-- Claim C4 (amended): every reducer is deterministic given the clock
reading, no reducer mutates its input state (states are immutable
values in the embedding), and the clock is read only by the `addTodo`
handler: on every action other than `addTodo`, the root reducer map —
hence each of `counterReducer`, `todoReducer`, `actionsLogReducer` —
yields the same state for any two clock readings. -/
theorem claim_C4_pure_except_addTodo (now₁ now₂ : Nat) (s : AppState) (a : Action)
    (h : ∀ text, a ≠ Action.addTodo text) :
    appReducers now₁ s a = appReducers now₂ s a := by
  cases a <;> first
    | rfl
    | exact absurd rfl (h _)

/-- Witness for the amended claim C4 at a concrete input: dispatching
`increment` from the initial app state gives the same result under
clock readings 1 and 2. -/
theorem claim_C4_witness :
    appReducers 1
        { counter := initialCounterState
        , todo := initialTodoState
        , actionsLog := initialActionsLogState } Action.increment
      = appReducers 2
        { counter := initialCounterState
        , todo := initialTodoState
        , actionsLog := initialActionsLogState } Action.increment :=
  claim_C4_pure_except_addTodo 1 2
    { counter := initialCounterState
    , todo := initialTodoState
    , actionsLog := initialActionsLogState } Action.increment
    (fun _ h => Action.noConfusion h)

end Showcase
